import Mathlib

/-!
Shallow embedding of the `templater` template/token resolution engine
(`src/python/templater/*.py`, with the module constants taken from
`src/templater/constants.py`, the variant that defines the names the
resolver references).  Python values are modelled by `Value`, Python
exceptions by `PyExc`, `dict`s of parsed fields by insertion-ordered
association lists, and the `re` module by a small regex AST together
with a parser for the pattern strings the engine generates and a
backtracking matcher with Python's leftmost/greedy semantics.
-/

set_option maxRecDepth 4000

deriving instance DecidableEq for Except

namespace Templater

/-- A Python value as used by the engine: either an `int` or a `str`. -/
inductive Value where
  | int (i : Int)
  | str (s : String)
deriving Repr, DecidableEq

/-- The exception taxonomy of `templater.exceptions` plus the built-in
Python exceptions the code can leak (`re.error`, `KeyError`).
`DebugParseError`, `MismatchTokenError` and `ExcessStringError` carry
`(message, char_index, segment_index, partial_fields)`. -/
inductive PyExc where
  | formatError (msg : String)
  | missingTokenError (tokenName : String)
  | parseError (msg : String)
  | resolverError (msg : String)
  | debugParseError (msg : String) (charIndex : Nat) (segmentIndex : Nat)
      (fields : List (String × Value))
  | mismatchTokenError (msg : String) (charIndex : Nat) (segmentIndex : Nat)
      (fields : List (String × Value))
  | excessStringError (msg : String) (charIndex : Nat) (segmentIndex : Nat)
      (fields : List (String × Value))
  | reError (msg : String)
  | keyError (msg : String)
deriving Repr, DecidableEq

/-- Membership in Python's `ParseError` family (`DebugParseError` and its
subclasses derive from `ParseError`). -/
def PyExc.isParseErrorFamily : PyExc → Bool
  | .parseError _ => true
  | .debugParseError _ _ _ _ => true
  | .mismatchTokenError _ _ _ _ => true
  | .excessStringError _ _ _ _ => true
  | _ => false

/-- Insertion-ordered association list standing in for a Python `dict`. -/
abbrev Fields := List (String × Value)

/-- `d[k]` lookup. -/
def lookupF (f : Fields) (k : String) : Option Value :=
  match f with
  | [] => none
  | (k', v) :: rest => if k' = k then some v else lookupF rest k

/-- `d[k] = v`: replaces the value in place if the key exists (Python
dicts keep the original insertion position), appends otherwise. -/
def insertF (f : Fields) (k : String) (v : Value) : Fields :=
  match f with
  | [] => [(k, v)]
  | (k', v') :: rest =>
      if k' = k then (k', v) :: rest else (k', v') :: insertF rest k v

/-- `d.pop(k)`: removes the entry for `k`. -/
def eraseF (f : Fields) (k : String) : Fields :=
  match f with
  | [] => []
  | (k', v') :: rest => if k' = k then rest else (k', v') :: eraseF rest k

/-- Python `str(value)`. -/
def pyStr : Value → String
  | .int i => toString i
  | .str s => s

/-- Python `int(string)`: optional sign followed by at least one digit
(leading zeros allowed, `int("01") == 1`); anything else raises
`ValueError`, modelled as `none`. -/
def pyInt (s : String) : Option Int :=
  let cs := s.toList
  let (neg, digits) :=
    match cs with
    | '-' :: rest => (true, rest)
    | '+' :: rest => (false, rest)
    | _ => (false, cs)
  if digits.isEmpty ∨ ¬ digits.all (·.isDigit) then none
  else
    let n : Nat := digits.foldl (fun acc c => acc * 10 + (c.toNat - '0'.toNat)) 0
    some (if neg then -(n : Int) else (n : Int))

/-! ### Python `format` mini-implementation

Only the format-spec subset the engine produces is modelled:
`[[fill]align][sign]['0'][width][type]` with `align ∈ <>=^` and
`type ∈ {d, s, none}`.  A mismatch between the type code and the value
raises `ValueError` (Python: "Unknown format code 'd' for object of
type 'str'"), which `Token.format` catches. -/

/-- Outcome of `"{:spec}".format(value)`: either the rendered string or a
`ValueError` (the only exception `Token.format` catches from rendering). -/
def isAlignChar (c : Char) : Bool := c = '<' ∨ c = '>' ∨ c = '=' ∨ c = '^'

/-- Parsed format spec: fill, align, zero-flag, width, type code. -/
structure FormatSpec where
  fill : Option Char
  align : Option Char
  zero : Bool
  width : Nat
  typeCode : Option Char
deriving Repr, DecidableEq

/-- Parse a Python format spec string (the supported subset); `none`
models a `ValueError` for an unsupported spec. -/
def parseFormatSpec (spec : String) : Option FormatSpec :=
  let cs := spec.toList
  let (fill, align, rest) :=
    match cs with
    | a :: b :: rest' =>
        if isAlignChar b then (some a, some b, rest')
        else if isAlignChar a then (none, some a, b :: rest')
        else (none, none, cs)
    | [a] => if isAlignChar a then (none, some a, ([] : List Char)) else (none, none, cs)
    | [] => (none, none, cs)
  -- sign characters are not produced by the engine; reject all but none
  let (zero, rest) :=
    match rest with
    | '0' :: rest' => (true, rest')
    | _ => (false, rest)
  let widthDigits := rest.takeWhile (·.isDigit)
  let rest := rest.dropWhile (·.isDigit)
  let width := widthDigits.foldl (fun acc c => acc * 10 + (c.toNat - '0'.toNat)) 0
  match rest with
  | [] => some ⟨fill, align, zero, width, none⟩
  | [t] => if t.isAlpha then some ⟨fill, align, zero, width, some t⟩ else none
  | _ => none

/-- Pad `body` to `width` with `fillc` under alignment `al`
(`sign` is the already-rendered sign prefix, used by `'='`). -/
def padTo (al : Char) (fillc : Char) (width : Nat) (sign body : String) : String :=
  let full := sign ++ body
  if full.length ≥ width then full
  else
    let padding := String.mk (List.replicate (width - full.length) fillc)
    if al = '>' then padding ++ full
    else if al = '<' then full ++ padding
    else if al = '=' then sign ++ padding ++ body
    else -- '^'
      let left := (width - full.length) / 2
      String.mk (List.replicate left fillc) ++ full ++
        String.mk (List.replicate (width - full.length - left) fillc)

/-- `"{:spec}".format(value)`; `none` models a `ValueError`. -/
def pyFormat (spec : String) (v : Value) : Option String :=
  match parseFormatSpec spec with
  | none => none
  | some fs =>
    match v with
    | .int i =>
        match fs.typeCode with
        | some 'd' | none =>
            let sign := if i < 0 then "-" else ""
            let body := toString i.natAbs
            let al := fs.align.getD (if fs.zero then '=' else '>')
            let fillc := fs.fill.getD (if fs.zero then '0' else ' ')
            some (padTo al fillc fs.width sign body)
        | _ => none
    | .str s =>
        match fs.typeCode with
        | some 's' | none =>
            -- '=' alignment (and the '0' flag, which implies it) is a
            -- ValueError for strings
            if fs.zero ∨ fs.align = some '=' then none
            else
              let al := fs.align.getD '<'
              let fillc := fs.fill.getD ' '
              some (padTo al fillc fs.width "" s)
        | _ => none

/-! ### The `re` module subset

The engine only ever feeds `re` patterns built from: escaped literals,
character classes, `.`/`^`/`$`, greedy quantifiers (`+`, `*`, `?`,
`\x7bm,n\x7d` and friends), named groups `(?P<name>...)`, backreferences
`(?P=name)`, plain groups `(...)` and alternation `|`.  `reCompile`
parses such a pattern string (raising `re.error` on a duplicate group
name exactly as CPython's `sre_compile` does) and `reMatchAux` is a
backtracking matcher with Python's leftmost, greedy semantics;
`re.match` anchors the attempt at position 0. -/

/-- Regex AST for the generated-pattern subset. -/
inductive RE where
  | epsilon
  | ch (c : Char)
  | cls (ranges : List (Char × Char))
  | dot
  | bol
  | eol
  | seq (a b : RE)
  | alt (a b : RE)
  | rep (lo : Nat) (hi : Option Nat) (r : RE)
  | group (idx : Nat) (name : Option String) (r : RE)
  | backref (name : String)
deriving Repr, DecidableEq

/-- Parse the body of a character class up to the closing `]`. -/
def parseClassItems : Nat → List Char →
    Except String (List (Char × Char) × List Char)
  | 0, _ => .error "re.error: fuel exhausted"
  | _, [] => .error "re.error: unterminated character set"
  | _ + 1, ']' :: rest => .ok ([], rest)
  | fuel + 1, '\\' :: c :: rest => do
      let (items, rest') ← parseClassItems fuel rest
      .ok ((c, c) :: items, rest')
  | fuel + 1, a :: '-' :: b :: rest =>
      if b = ']' then do
        let (items, rest') ← parseClassItems fuel (b :: rest)
        .ok ((a, a) :: (('-', '-') :: items), rest')
      else do
        let (items, rest') ← parseClassItems fuel rest
        .ok ((a, b) :: items, rest')
  | fuel + 1, a :: rest => do
      let (items, rest') ← parseClassItems fuel rest
      .ok ((a, a) :: items, rest')

/-- Read a run of decimal digits. -/
def readDigits (cs : List Char) : Option Nat × List Char :=
  let ds := cs.takeWhile (·.isDigit)
  if ds.isEmpty then (none, cs)
  else (some (ds.foldl (fun acc c => acc * 10 + (c.toNat - '0'.toNat)) 0),
        cs.dropWhile (·.isDigit))

/-- Read a group name up to the given terminator. -/
def readName (term : Char) (cs : List Char) : Except String (String × List Char) :=
  let nm := cs.takeWhile (fun c => c ≠ term)
  let rest := cs.dropWhile (fun c => c ≠ term)
  match rest with
  | [] => .error "re.error: missing group-name terminator"
  | _ :: rest' =>
      if nm.isEmpty then .error "re.error: missing group name"
      else .ok (String.mk nm, rest')

mutual

/-- Parse an alternation (lowest precedence). State: next group number and
the list of group names already defined (CPython numbers groups by the
position of their opening parenthesis and rejects a duplicate name). -/
def parseRxAlt : Nat → List Char → Nat → List String →
    Except String (RE × List Char × Nat × List String)
  | 0, _, _, _ => .error "re.error: fuel exhausted"
  | fuel + 1, cs, gi, names => do
      let (r, rest, gi', names') ← parseRxConcat fuel cs gi names
      match rest with
      | '|' :: rest' => do
          let (r2, rest2, gi2, names2) ← parseRxAlt fuel rest' gi' names'
          .ok (RE.alt r r2, rest2, gi2, names2)
      | _ => .ok (r, rest, gi', names')
termination_by structural fuel _ _ _ => fuel

/-- Parse a concatenation of quantified atoms. -/
def parseRxConcat : Nat → List Char → Nat → List String →
    Except String (RE × List Char × Nat × List String)
  | 0, _, _, _ => .error "re.error: fuel exhausted"
  | fuel + 1, cs, gi, names =>
      match cs with
      | [] => .ok (RE.epsilon, [], gi, names)
      | ')' :: _ => .ok (RE.epsilon, cs, gi, names)
      | '|' :: _ => .ok (RE.epsilon, cs, gi, names)
      | _ => do
          let (a, rest, gi', names') ← parseRxAtomQ fuel cs gi names
          let (b, rest2, gi2, names2) ← parseRxConcat fuel rest gi' names'
          .ok (RE.seq a b, rest2, gi2, names2)
termination_by structural fuel _ _ _ => fuel

/-- Parse one atom followed by an optional quantifier. -/
def parseRxAtomQ : Nat → List Char → Nat → List String →
    Except String (RE × List Char × Nat × List String)
  | 0, _, _, _ => .error "re.error: fuel exhausted"
  | fuel + 1, cs, gi, names => do
      let (a, rest, gi', names') ← parseRxAtom fuel cs gi names
      match rest with
      | '+' :: r => .ok (RE.rep 1 none a, r, gi', names')
      | '*' :: r => .ok (RE.rep 0 none a, r, gi', names')
      | '?' :: r => .ok (RE.rep 0 (some 1) a, r, gi', names')
      | '{' :: r =>
          let (lo, r1) := readDigits r
          (match r1 with
           | ',' :: r2 =>
               let (hi, r3) := readDigits r2
               (match r3 with
                | '}' :: r4 => .ok (RE.rep (lo.getD 0) hi a, r4, gi', names')
                | _ => .error "re.error: bad repeat interval")
           | '}' :: r4 =>
               (match lo with
                | some n => .ok (RE.rep n (some n) a, r4, gi', names')
                | none => .error "re.error: bad repeat interval")
           | _ => .error "re.error: bad repeat interval")
      | _ => .ok (a, rest, gi', names')
termination_by structural fuel _ _ _ => fuel

/-- Parse a single atom. -/
def parseRxAtom : Nat → List Char → Nat → List String →
    Except String (RE × List Char × Nat × List String)
  | 0, _, _, _ => .error "re.error: fuel exhausted"
  | fuel + 1, cs, gi, names =>
      match cs with
      | [] => .error "re.error: unexpected end of pattern"
      | '(' :: '?' :: 'P' :: '<' :: rest => do
          let (nm, rest') ← readName '>' rest
          if names.contains nm then
            .error ("re.error: redefinition of group name '" ++ nm ++ "'")
          else do
            let (body, rest2, gi2, names2) ← parseRxAlt fuel rest' (gi + 1) (names ++ [nm])
            match rest2 with
            | ')' :: rest3 => .ok (RE.group gi (some nm) body, rest3, gi2, names2)
            | _ => .error "re.error: missing ), unterminated subpattern"
      | '(' :: '?' :: 'P' :: '=' :: rest => do
          let (nm, rest') ← readName ')' rest
          .ok (RE.backref nm, rest', gi, names)
      | '(' :: rest => do
          let (body, rest2, gi2, names2) ← parseRxAlt fuel rest (gi + 1) names
          match rest2 with
          | ')' :: rest3 => .ok (RE.group gi none body, rest3, gi2, names2)
          | _ => .error "re.error: missing ), unterminated subpattern"
      | '[' :: rest => do
          let (items, rest') ← parseClassItems fuel rest
          .ok (RE.cls items, rest', gi, names)
      | '.' :: rest => .ok (RE.dot, rest, gi, names)
      | '^' :: rest => .ok (RE.bol, rest, gi, names)
      | '$' :: rest => .ok (RE.eol, rest, gi, names)
      | '\\' :: c :: rest =>
          if c.isAlphanum then .error "re.error: unsupported escape"
          else .ok (RE.ch c, rest, gi, names)
      | c :: rest => .ok (RE.ch c, rest, gi, names)
termination_by structural fuel _ _ _ => fuel

end


/-- `re.compile(pattern)`: the AST plus the number of capture groups;
errors model `re.error`. -/
def reCompile (pat : String) : Except String (RE × Nat) := do
  let cs := pat.toList
  let (r, rest, gi, _) ← parseRxAlt (4 * cs.length + 16) cs 1 []
  match rest with
  | [] => .ok (r, gi - 1)
  | _ => .error "re.error: unbalanced parenthesis"

/-- Latest-first list of completed captures `(index, name, start, end)`. -/
abbrev Caps := List (Nat × Option String × Nat × Nat)

/-- Character-class membership. -/
def charInRanges (c : Char) (rs : List (Char × Char)) : Bool :=
  rs.any (fun p => p.1 ≤ c ∧ c ≤ p.2)

/-- Last capture recorded for a group name. -/
def capName (caps : Caps) (n : String) : Option (Nat × Nat) :=
  match caps with
  | [] => none
  | (_, nm, s, e) :: rest => if nm = some n then some (s, e) else capName rest n

/-- Last capture recorded for a group number. -/
def capIdx (caps : Caps) (i : Nat) : Option (Nat × Nat) :=
  match caps with
  | [] => none
  | (j, _, s, e) :: rest => if j = i then some (s, e) else capIdx rest i

/-- `s[a:b]` on a character list. -/
def sliceL (s : List Char) (a b : Nat) : List Char := (s.take b).drop a

/-- Backtracking matcher in continuation-passing style.  Alternation
tries the left branch (with the whole continuation) first; repetition is
greedy, preferring one more iteration of the body before handing over to
the continuation.  Group captures are recorded when the group's body
completes; captures made on abandoned branches never escape.  The fuel
only bounds the total number of steps and is chosen generously by
`reMatchFrom`. -/
def reMatchAux : Nat → RE → List Char → Nat → Caps →
    (Nat → Caps → Option (Nat × Caps)) → Option (Nat × Caps)
  | 0, _, _, _, _, _ => none
  | fuel + 1, r, s, pos, caps, k =>
      match r with
      | .epsilon => k pos caps
      | .ch c =>
          match s.get? pos with
          | some c' => if c' = c then k (pos + 1) caps else none
          | none => none
      | .cls rs =>
          match s.get? pos with
          | some c' => if charInRanges c' rs then k (pos + 1) caps else none
          | none => none
      | .dot =>
          match s.get? pos with
          | some c' => if c' ≠ '\n' then k (pos + 1) caps else none
          | none => none
      | .bol => if pos = 0 then k pos caps else none
      | .eol =>
          if pos = s.length ∨ (pos + 1 = s.length ∧ s.get? pos = some '\n')
          then k pos caps else none
      | .seq a b =>
          reMatchAux fuel a s pos caps (fun p c => reMatchAux fuel b s p c k)
      | .alt a b =>
          match reMatchAux fuel a s pos caps k with
          | some res => some res
          | none => reMatchAux fuel b s pos caps k
      | .rep lo hi body =>
          if lo > 0 then
            reMatchAux fuel body s pos caps
              (fun p c =>
                reMatchAux fuel (.rep (lo - 1) (hi.map (· - 1)) body) s p c k)
          else
            match hi with
            | some 0 => k pos caps
            | _ =>
                match reMatchAux fuel body s pos caps
                    (fun p c =>
                      reMatchAux fuel (.rep 0 (hi.map (· - 1)) body) s p c k) with
                | some res => some res
                | none => k pos caps
      | .group idx nm body =>
          reMatchAux fuel body s pos caps (fun p c => k p ((idx, nm, pos, p) :: c))
      | .backref nm =>
          match capName caps nm with
          | none => none
          | some (st, en) =>
              let txt := sliceL s st en
              if sliceL s pos (pos + (en - st)) = txt
              then k (pos + (en - st)) caps else none

/-- `compiled.match(string)`: attempt anchored at position 0 only,
returning the match end and the captures. -/
def reMatchFrom (r : RE) (s : String) : Option (Nat × Caps) :=
  reMatchAux 100000 r s.toList 0 [] (fun p c => some (p, c))

/-- `re.match(pattern, string)`: compile then match; a compile failure is
`re.error` (an exception outside the `ParseError` family). -/
def pyReMatch (pat s : String) : Except String (Option (Nat × Caps)) := do
  let (r, _) ← reCompile pat
  .ok (reMatchFrom r s)

/-- Text of a capture span. -/
def spanText (s : String) (sp : Nat × Nat) : String :=
  String.mk (sliceL s.toList sp.1 sp.2)

/-- `match.group(0)` text of a match that started at position 0. -/
def matchText (s : String) (endPos : Nat) : String :=
  String.mk (s.toList.take endPos)

/-- Python 3.7+ `re.escape`: every character in the special set is
prefixed with a backslash. -/
def reSpecialChars : List Char :=
  ['(', ')', '[', ']', '{', '}', '?', '*', '+', '-', '|', '^', '$', '\\',
   '.', '&', '~', '#', ' ', '\t', '\n', '\r', '\x0b', '\x0c']

/-- `re.escape(string)`. -/
def reEscape (s : String) : String :=
  String.mk (s.toList.foldr
    (fun c acc => if reSpecialChars.contains c then '\\' :: c :: acc else c :: acc) [])

/-! ### `templater.token`

`Token` holds the name, the unanchored pattern fragment (Python stores
`re.compile("^" + regex + "$")`; `Token.regex()` strips the anchors
back off), the format spec, the description and the optional default.
The subclass (`Token` / `IntToken` / `StringToken`) only changes
`value_from_parsed_string` and the class-level constants, so it is
modelled as a `kind` tag. -/

inductive TokenKind where
  | base
  | int
  | str
deriving Repr, DecidableEq

structure Token where
  name : String
  regexStr : String
  format_spec : String
  description : String
  default : Option Value
  kind : TokenKind
deriving Repr, DecidableEq

/-- Python `repr(value)` for the values in play. -/
def pyReprV : Value → String
  | .int i => toString i
  | .str s => "'" ++ s ++ "'"

/-- Python `str(x)` for an optional value (`None` when absent). -/
def pyOptStr : Option Value → String
  | none => "None"
  | some v => pyStr v

/-- The class name used by `Token.__repr__`. -/
def TokenKind.clsName : TokenKind → String
  | .base => "Token"
  | .int => "IntToken"
  | .str => "StringToken"

/-- `Token.__repr__`. -/
def Token.reprStr (t : Token) : String :=
  t.kind.clsName ++ "('" ++ t.name ++ "', '" ++ t.regexStr ++ "', '" ++
    t.format_spec ++ "', description='" ++ t.description ++ "', default=" ++
    pyOptStr t.default ++ ")"

/-- `Token.value_from_parsed_string` / `IntToken.value_from_parsed_string`:
identity for plain and string tokens, `int(...)` conversion for integer
tokens (raising `ParseError` on non-numeric text). -/
def Token.valueFromParsedString (t : Token) (s : String) : Except PyExc Value :=
  match t.kind with
  | .int =>
      match pyInt s with
      | some i => .ok (.int i)
      | none =>
          .error (.parseError
            ("String '" ++ s ++ "' does not match int token '" ++ t.name ++ "'"))
  | _ => .ok (.str s)

/-- `Token.parse`: match the full string against the anchored pattern,
then convert the (whole) string to the token's value. -/
def Token.parse (t : Token) (s : String) : Except PyExc Value :=
  match pyReMatch ("^" ++ t.regexStr ++ "$") s with
  | .error m => .error (.reError m)
  | .ok none =>
      .error (.parseError
        ("String '" ++ s ++ "' does not match token " ++ t.reprStr))
  | .ok (some _) => t.valueFromParsedString s

/-- `Token.format`: render via `"\x7b:format_spec\x7d".format(value)`
(a `ValueError` becomes a `FormatError`), then re-parse the rendered
string, turning a `ValueError`/`ParseError` from parsing into a
`FormatError`.  Note the parsed value is *not* compared with the input. -/
def Token.format (t : Token) (v : Value) : Except PyExc String :=
  match pyFormat t.format_spec v with
  | none =>
      .error (.formatError
        ("Value " ++ pyReprV v ++ " does not match " ++ t.reprStr))
  | some s =>
      match t.parse s with
      | .ok _ => .ok s
      | .error e =>
          if e.isParseErrorFamily then
            .error (.formatError
              ("Value as string '" ++ s ++ "' does not match " ++ t.reprStr))
          else .error e

/-- `IntToken(name)` with the default constructor arguments. -/
def mkIntToken (name : String) : Token :=
  ⟨name, "[0-9]+", "d", "", none, .int⟩

/-- `StringToken(name)` with the default constructor arguments. -/
def mkStringToken (name : String) : Token :=
  ⟨name, "[a-zA-Z]+", "s", "", none, .str⟩

/-! ### Token configuration (`util.py` and the classmethods) -/

/-- A token configuration dictionary.  `none` doubles for an absent key
and for Python `None` (the code only ever distinguishes them through
truthiness, except for `setdefault("padstrict", ...)`, which the engine
never combines with an explicit `None`). -/
structure TokenConfig where
  regex : Option String := none
  choices : Option (List Value) := none
  padmin : Option Int := none
  padmax : Option Int := none
  padalign : Option String := none
  padchar : Option String := none
  padstrict : Option Bool := none
  format_spec : Option String := none
  caseFam : Option String := none
  description : Option String := none
  default : Option Value := none
deriving Repr, DecidableEq

/-- Truthiness of an optional int (Python `None` and `0` are falsy). -/
def optIntTruthy : Option Int → Bool
  | some v => v ≠ 0
  | none => false

/-- Truthiness of an optional list. -/
def choicesTruthy : Option (List Value) → Bool
  | some l => ¬ l.isEmpty
  | none => false

/-- Truthiness of an optional string. -/
def optStrTruthy : Option String → Bool
  | some s => ¬ s.isEmpty
  | none => false

/-- Truthiness of an optional bool. -/
def optBoolTruthy : Option Bool → Bool
  | some b => b
  | none => false

/-- Whether an optional int is negative. -/
def optNegInt : Option Int → Bool
  | some m => m < 0
  | none => false

/-- `util.get_regex_padding(padmin, padmax)`: validates the bounds and
produces the regex quantifier (`+` when neither bound is given). -/
def get_regex_padding (padmin padmax : Option Int) : Except PyExc String :=
  if optNegInt padmin then
    .error (.resolverError
      ("Padmin cannot be less than 0: " ++ toString (padmin.getD 0)))
  else if optNegInt padmax then
    .error (.resolverError
      ("Padmax cannot be less than 0: " ++ toString (padmax.getD 0)))
  else
    match padmin, padmax with
    | some m, some x =>
        if x < m then
          .error (.resolverError
            ("Padmax (" ++ toString x ++ ") cannot be lower than padmin (" ++
              toString m ++ ")"))
        else .ok ("\x7b" ++ toString m ++ "," ++ toString x ++ "\x7d")
    | some m, none => .ok ("\x7b" ++ toString m ++ ",\x7d")
    | none, some x => .ok ("\x7b," ++ toString x ++ "\x7d")
    | none, none => .ok "+"

/-- `util.get_case_regex(case)`. -/
def get_case_regex (c : String) : Except PyExc String :=
  if c = "lower" then .ok "[a-z]"
  else if c = "lowerCamel" then .ok "[a-z][a-zA-Z]"
  else if c = "upper" then .ok "[A-Z]"
  else if c = "UpperCamel" then .ok "[A-Z][a-zA-Z]"
  else .error (.resolverError ("Unknown case: " ++ c))

/-- Python `str(list_of_choices)` (`repr` of each element). -/
def pyListStr (l : List Value) : String :=
  "[" ++ String.intercalate ", " (l.map pyReprV) ++ "]"

/-- `"|".join(map(str, choices))`. -/
def joinChoices (l : List Value) : String :=
  String.intercalate "|" (l.map pyStr)

/-- `Token.get_regex_from_config` (also used by `IntToken`), parametrised
by the class-level `REGEX` constant.  With an explicit regex, any
*truthy* `choices`/`padmin`/`padmax` is rejected. -/
def Token.getRegexFromConfig (clsRegex : String) (cfg : TokenConfig) :
    Except PyExc String :=
  match cfg.regex with
  | none =>
      if choicesTruthy cfg.choices then .ok (joinChoices (cfg.choices.getD []))
      else do
        let pad ← get_regex_padding cfg.padmin cfg.padmax
        .ok (clsRegex ++ pad)
  | some r =>
      if choicesTruthy cfg.choices ∨ optIntTruthy cfg.padmin ∨
          optIntTruthy cfg.padmax then
        .error (.resolverError "Cannot use construction keywords with explicit regex")
      else .ok r

/-- The camel-case padding adjustment
`padmin = (padmin - 1) if padmin else None` (note the truthiness test:
`0` becomes `None`). -/
def camelDecPad : Option Int → Option Int
  | some v => if v ≠ 0 then some (v - 1) else none
  | none => none

/-- `StringToken.get_regex_from_config`: a truthy `case` (without an
explicit regex) derives the class from the case family; a non-`None`
`case` otherwise is rejected; with no `case` at all it defers to the
base method with `REGEX_STR`. -/
def StringToken.getRegexFromConfig (cfg : TokenConfig) : Except PyExc String :=
  if cfg.regex = none ∧ optStrTruthy cfg.caseFam then do
    let c := cfg.caseFam.getD ""
    let base ← get_case_regex c
    let (pm, px) :=
      if c = "lowerCamel" ∨ c = "UpperCamel" then
        (camelDecPad cfg.padmin, camelDecPad cfg.padmax)
      else (cfg.padmin, cfg.padmax)
    let pad ← get_regex_padding pm px
    .ok (base ++ pad)
  else if cfg.caseFam ≠ none then
    .error (.resolverError "Cannot use construction keywords with explicit regex")
  else Token.getRegexFromConfig "[a-zA-Z]" cfg

/-- `Token.get_format_spec_from_config`, parametrised by the class
`PADALIGN`/`PADCHAR` constants. -/
def Token.getFormatSpecFromConfig (clsPadalign clsPadchar : String)
    (cfg : TokenConfig) : String :=
  match cfg.format_spec with
  | some fs => fs
  | none =>
      match cfg.padmin with
      | none => ""
      | some m =>
          if optBoolTruthy cfg.padstrict then ""
          else (cfg.padchar.getD clsPadchar) ++ (cfg.padalign.getD clsPadalign) ++
            toString m

/-- `IntToken.get_format_spec_from_config`: the base spec with `d`
appended (`PADALIGN = "="`, `PADCHAR = "0"`). -/
def IntToken.getFormatSpecFromConfig (cfg : TokenConfig) : String :=
  Token.getFormatSpecFromConfig "=" "0" cfg ++ "d"

/-- `StringToken.get_format_spec_from_config`: `padstrict` defaults to
`True` via `setdefault`, then the base spec with `s` appended
(`PADALIGN = ">"`, `PADCHAR = "X"`). -/
def StringToken.getFormatSpecFromConfig (cfg : TokenConfig) : String :=
  let cfg' := { cfg with padstrict := some (cfg.padstrict.getD true) }
  Token.getFormatSpecFromConfig ">" "X" cfg' ++ "s"

/-- `Token.get_description_from_config`. -/
def Token.getDescriptionFromConfig (cfg : TokenConfig) : Option String :=
  if optStrTruthy cfg.description then cfg.description
  else if choicesTruthy cfg.choices then
    some ("Must be one of: " ++ pyListStr (cfg.choices.getD []))
  else cfg.description

/-- `IntToken.get_description_from_config`. -/
def IntToken.getDescriptionFromConfig (cfg : TokenConfig) : Option String :=
  match Token.getDescriptionFromConfig cfg with
  | some d => some d
  | none =>
      match cfg.padmin, cfg.padmax with
      | some m, some x =>
          if m = x then some ("Must be a " ++ toString m ++ "-digit integer")
          else some ("Must be a minimum " ++ toString m ++ "-digit integer")
      | some m, none => some ("Must be a minimum " ++ toString m ++ "-digit integer")
      | none, some x => some ("Must be a maximum " ++ toString x ++ "-digit integer")
      | none, none => some "Must be an integer"

/-- `StringToken.get_description_from_config`. -/
def StringToken.getDescriptionFromConfig (cfg : TokenConfig) : Option String :=
  match Token.getDescriptionFromConfig cfg with
  | some d => some d
  | none =>
      let c := if optStrTruthy cfg.caseFam then cfg.caseFam.getD "" ++ " case " else ""
      match cfg.padmin, cfg.padmax with
      | some m, some x =>
          if m = x then
            some ("Must be a " ++ toString m ++ "-character " ++ c ++ "string")
          else
            some ("Must be a minimum " ++ toString m ++ "-character " ++ c ++ "string")
      | some m, none =>
          some ("Must be a minimum " ++ toString m ++ "-character " ++ c ++ "string")
      | none, some x =>
          some ("Must be a maximum " ++ toString x ++ "-character " ++ c ++ "string")
      | none, none => some ("Must be a " ++ c ++ "string")

/-! ### `templater.template`

A `Template` is a name plus an ordered list of segments; a segment is a
literal string, a `Token`, or a nested `Template`. -/

mutual
inductive Template where
  | mk (name : String) (segments : List Seg)
inductive Seg where
  | lit (s : String)
  | tok (t : Token)
  | sub (t : Template)
end

/-- The template's name. -/
def Template.nameStr : Template → String
  | .mk n _ => n

/-- The template's (local) segment list. -/
def Template.segs : Template → List Seg
  | .mk _ segs => segs

mutual

/-- `Template.segments()` (with the default `local_only=False`): nested
templates are expanded recursively, so the result holds only literals
and tokens. -/
def Template.segmentsFlat : Template → List Seg
  | .mk _ segs => segsFlatten segs

def segsFlatten : List Seg → List Seg
  | [] => []
  | .sub t :: rest => t.segmentsFlat ++ segsFlatten rest
  | .lit s :: rest => .lit s :: segsFlatten rest
  | .tok tk :: rest => .tok tk :: segsFlatten rest

end

/-- `Template.tokens()`: the token segments of the flattened list, in
traversal order, duplicates preserved. -/
def Template.tokensFlat (t : Template) : List Token :=
  t.segmentsFlat.filterMap (fun seg =>
    match seg with
    | .tok tk => some tk
    | _ => none)

mutual

/-- `Template.pattern()` (with `formatters=False`). -/
def Template.pattern : Template → String
  | .mk _ segs => patternSegs segs

def patternSegs : List Seg → String
  | [] => ""
  | .lit s :: rest => s ++ patternSegs rest
  | .tok tk :: rest => "\x7b" ++ tk.name ++ "\x7d" ++ patternSegs rest
  | .sub t :: rest => t.pattern ++ patternSegs rest

end

/-- `Template.__str__`: `name + ":" + pattern()`. -/
def Template.strPy (t : Template) : String :=
  t.nameStr ++ ":" ++ t.pattern

mutual

/-- `Template.regex(backreferences)`.  The Python body starts with
`backreferences = backreferences or []`: when the caller's list is
*empty* this rebinds the local name to a fresh list, so every append the
callee makes is invisible to the caller; when the caller's list is
non-empty the very same object is shared and mutations propagate.  The
function returns the built pattern together with the caller-visible
final state of the list. -/
def Template.regexPy : Template → List String → String × List String
  | .mk _ segs, backrefs =>
      if backrefs.isEmpty then ((regexSegs segs []).1, backrefs)
      else regexSegs segs backrefs

/-- The segment loop of `Template.regex`: literals are `re.escape`d, a
token name not yet seen compiles to a named capture group (and is
recorded), an already-seen name compiles to a backreference
`(?P=name)`, and nested templates recurse through
`Template.regexPy`. -/
def regexSegs : List Seg → List String → String × List String
  | [], seen => ("", seen)
  | .lit s :: rest, seen =>
      let (r, seen') := regexSegs rest seen
      (reEscape s ++ r, seen')
  | .sub t :: rest, seen =>
      let (p, seen1) := t.regexPy seen
      let (r, seen2) := regexSegs rest seen1
      (p ++ r, seen2)
  | .tok tk :: rest, seen =>
      if seen.contains tk.name then
        let (r, seen') := regexSegs rest seen
        ("(?P=" ++ tk.name ++ ")" ++ r, seen')
      else
        let (r, seen') := regexSegs rest (seen ++ [tk.name])
        ("(?P<" ++ tk.name ++ ">" ++ tk.regexStr ++ ")" ++ r, seen')

end

/-- `Template.regex()` as invoked with no argument (`None or []` makes a
fresh list). -/
def Template.regexStrTop (t : Template) : String :=
  (t.regexPy []).1

/-- Lookup in the `unformatted` string-to-string dict. -/
def lookupS (l : List (String × String)) (k : String) : Option String :=
  match l with
  | [] => none
  | (k', v) :: rest => if k' = k then some v else lookupS rest k

mutual

/-- `Template.format(fields, unformatted, use_defaults)`: concatenates
the per-segment strings, failing on the first segment that raises. -/
def Template.format : Template → Fields → List (String × String) → Bool →
    Except PyExc String
  | .mk _ segs, fields, unformatted, useDefaults =>
      formatSegs segs fields unformatted useDefaults

def formatSegs : List Seg → Fields → List (String × String) → Bool →
    Except PyExc String
  | [], _, _, _ => .ok ""
  | seg :: rest, fields, unformatted, useDefaults => do
      let s ← formatSeg seg fields unformatted useDefaults
      let r ← formatSegs rest fields unformatted useDefaults
      .ok (s ++ r)

/-- One segment of `Template.format`: literals pass through; a nested
template recurses via `segment.format(fields)` — dropping `unformatted`
and resetting `use_defaults` to `True` (the keyword arguments are not
forwarded); a token uses the `unformatted` override verbatim, else the
field value through `Token.format`, else `str(default)` (not
`Token.format`) when defaults are enabled, else raises
`MissingTokenError`. -/
def formatSeg : Seg → Fields → List (String × String) → Bool →
    Except PyExc String
  | .lit s, _, _, _ => .ok s
  | .sub t, fields, _, _ => Template.format t fields [] true
  | .tok tk, fields, unformatted, useDefaults =>
      match lookupS unformatted tk.name with
      | some s => .ok s
      | none =>
          match lookupF fields tk.name with
          | none =>
              if useDefaults ∧ tk.default.isSome then .ok (pyOptStr tk.default)
              else .error (.missingTokenError tk.name)
          | some v => tk.format v

end

/-- `Template._parse(regex, string)`: match, then convert each named
capture through its token's value conversion, iterating `self.tokens()`
(dict-comprehension semantics: later duplicates overwrite). -/
def Template.parseWithRegex (t : Template) (pat s : String) :
    Except PyExc (Fields × Nat) :=
  match pyReMatch pat s with
  | .error m => .error (.reError m)
  | .ok none =>
      .error (.parseError
        ("String '" ++ s ++ "' doesn't match template '" ++ t.strPy ++ "'"))
  | .ok (some (endPos, caps)) => do
      let fields ← t.tokensFlat.foldlM
        (fun acc tk =>
          match capName caps tk.name with
          | none => .error (.keyError tk.name)
          | some sp => do
              let v ← tk.valueFromParsedString (spanText s sp)
              .ok (insertF acc tk.name v)) []
      .ok (fields, endPos)

/-- `Template.parse(string)`: anchored full-string variant of `_parse`. -/
def Template.parse (t : Template) (s : String) : Except PyExc Fields := do
  let (fields, _) ← t.parseWithRegex ("^" ++ t.regexStrTop ++ "$") s
  .ok fields

/-! ### `Template.parse_debug` -/

/-- The sub-regex `parse_debug` builds for one segment: the *unescaped*
literal text for a string segment, the token's own regex otherwise
(`"(\x7b\x7d)".format(segment if isinstance(segment, str) else
segment.regex())`). -/
def segRegexForDebug : Seg → String
  | .lit s => s
  | .tok tk => tk.regexStr
  | .sub t => t.regexStrTop

/-- Rendering of a segment inside the "Match fails at segment" message. -/
def segDescr : Seg → String
  | .lit s => "'" ++ s ++ "'"
  | .tok tk => "\x7b" ++ tk.name ++ "\x7d"
  | .sub t => "\x7b" ++ t.nameStr ++ "\x7d"

/-- `match.groups()`: the last-capture span of each group `1..n`. -/
def matchGroups (numGroups : Nat) (caps : Caps) : List (Option (Nat × Nat)) :=
  (List.range numGroups).map (fun i => capIdx caps (i + 1))

/-- The character index where a failing literal segment diverges from the
remaining string: Python's
`for char_index, (a, b) in enumerate(zip(segment, string[ci:]), start=ci)`
with a `break` on the first difference — when the loop runs to the end
without a break, `char_index` is left at the *last* assigned index, and
when the zip is empty it keeps its prior value. -/
def litMismatchIndex : List (Char × Char) → Nat → Nat
  | [], idx => idx
  | [_], idx => idx
  | (a, b) :: p :: rest, idx =>
      if a ≠ b then idx else litMismatchIndex (p :: rest) (idx + 1)

/-- Char index reported for a failing literal segment. -/
def litCharIndex (seg rem : List Char) (start : Nat) : Nat :=
  let pairs := seg.zip rem
  if pairs.isEmpty then start else litMismatchIndex pairs start

/-- The conversion loop of `parse_debug` over
`zip(segments, match.groups())`: literals are skipped; a token value
that fails conversion raises `DebugParseError` at the group's start
offset; a repeated token whose converted value disagrees with the
recorded one raises `MismatchTokenError` (popping the stale entry
first); otherwise the value is stored. -/
def debugConvertLoop (s : String) :
    List (Seg × Option (Nat × Nat)) → Nat → Fields → Except PyExc Fields
  | [], _, fields => .ok fields
  | (seg, sp) :: rest, i, fields =>
      match seg with
      | .lit _ => debugConvertLoop s rest (i + 1) fields
      | .sub _ => .error (.keyError "unreachable: flattened segments hold no templates")
      | .tok tk =>
          match sp with
          | none => .error (.keyError "unreachable: all prefix groups participate")
          | some span =>
              let charIndex := span.1
              match tk.valueFromParsedString (spanText s span) with
              | .error (.parseError m) =>
                  .error (.debugParseError m charIndex i fields)
              | .error e => .error e
              | .ok v =>
                  match lookupF fields tk.name with
                  | some prev =>
                      if prev ≠ v then
                        .error (.mismatchTokenError
                          ("Mismatched values for token \x7b" ++ tk.name ++ "\x7d: "
                            ++ pyStr prev ++ " != " ++ pyStr v)
                          charIndex i (eraseF fields tk.name))
                      else debugConvertLoop s rest (i + 1) (insertF fields tk.name v)
                  | none => debugConvertLoop s rest (i + 1) (insertF fields tk.name v)

/-- The decreasing-prefix loop of `parse_debug` (`segment_index` runs
from the segment count down to 1; the argument here is the current
`segment_index`).  On the first prefix that matches: convert the
captured values; at the maximal prefix decide success or
`ExcessStringError`; at a shorter prefix report where segment
`segment_index` (the first one excluded) fails.  When no prefix at all
matches, report at offset 0. -/
def parseDebugLoop (s : String) (segments : List Seg) (regexes : List String) :
    Nat → Except PyExc Fields
  | 0 => .error (.debugParseError "String does not match at all" 0 0 [])
  | k + 1 =>
      let pat := String.join (regexes.take (k + 1))
      match reCompile pat with
      | .error m => .error (.reError m)
      | .ok (r, ng) =>
          match reMatchFrom r s with
          | none => parseDebugLoop s segments regexes k
          | some (endPos, caps) => do
              let fields ← debugConvertLoop s (segments.zip (matchGroups ng caps)) 0 []
              if k + 1 = segments.length then
                if matchText s endPos ≠ s then
                  .error (.excessStringError "Template matches string with remainder"
                    endPos segments.length fields)
                else .ok fields
              else
                match segments.get? (k + 1) with
                | none => .error (.keyError "unreachable: k + 1 < segments.length")
                | some seg =>
                    let charIndex :=
                      match seg with
                      | .lit litstr => litCharIndex litstr.toList (s.toList.drop endPos) endPos
                      | _ => endPos
                    .error (.debugParseError
                      ("Match fails at segment (" ++ toString (k + 1) ++ ") " ++ segDescr seg)
                      charIndex (k + 1) fields)

/-- `Template.parse_debug(string)`. -/
def Template.parseDebug (t : Template) (s : String) : Except PyExc Fields :=
  let segments := t.segmentsFlat
  let regexes := segments.map (fun seg => "(" ++ segRegexForDebug seg ++ ")")
  parseDebugLoop s segments regexes segments.length

/-! ### `templater.pathtemplate` -/

/-- Bounded body of Python `str.replace(old, new)`: non-overlapping
replacement left to right (`old` non-empty). -/
def pyReplaceAux (old new : List Char) : Nat → List Char → List Char
  | 0, cs => cs
  | _ + 1, [] => []
  | fuel + 1, c :: rest =>
      if old.isPrefixOf (c :: rest) then
        new ++ pyReplaceAux old new fuel ((c :: rest).drop old.length)
      else c :: pyReplaceAux old new fuel rest

/-- Python `string.replace(old, new)`. -/
def pyReplace (s old new : String) : String :=
  String.mk (pyReplaceAux old.toList new.toList (s.length + 1) s.toList)

/-- `PathTemplate.parse(string)`: normalize backslash separators to `/`
(`string.replace("\\", "/")`), then delegate to `Template.parse`. -/
def PathTemplate.parse (t : Template) (s : String) : Except PyExc Fields :=
  Template.parse t (pyReplace s "\\" "/")

/-! ### `templater.resolver`

The resolver keeps a flat token registry and a per-type template
registry.  `create_template` scans the definition string with
`constants.TOKEN_PATTERN = r"\x7b(\W)?([\w\.]+)\x7d"` (the constants
variant the resolver's names refer to), resolving `\x7bname\x7d` to a
registered token and `\x7b@name\x7d` / `\x7b@type.name\x7d` to a
template, recursively constructing missing templates from the supplied
reference config.  The Python recursion has no cycle check and no
structural bound, so the model takes a fuel parameter; `none` models a
computation that exhausts every finite recursion budget (Python's
`RecursionError`). -/

structure ResolverState where
  tokens : List (String × Token)
  templates : List (String × List (String × Template))

/-- The empty resolver (`TemplateResolver()`). -/
def emptyResolver : ResolverState := ⟨[], []⟩

/-- Python `\w` (ASCII). -/
def isWordChar (c : Char) : Bool := c.isAlphanum ∨ c = '_'

/-- The `[\w\.]` class of the token-reference pattern. -/
def isNameChar (c : Char) : Bool := isWordChar c ∨ c = '.'

/-- One attempted match of `TOKEN_PATTERN` at the head of the list:
`\x7b`, then a greedy optional non-word symbol character (tried first,
backtracked if the rest fails), then one or more name characters, then
`\x7d`.  Returns the consumed length, the optional symbol and the
name. -/
def tryTokenPattern (cs : List Char) : Option (Nat × Option Char × String) :=
  match cs with
  | '\x7b' :: rest =>
      let withSym :=
        match rest with
        | c :: rest2 =>
            if ¬ isWordChar c then
              let nm := rest2.takeWhile isNameChar
              let rest3 := rest2.dropWhile isNameChar
              match rest3 with
              | '\x7d' :: _ =>
                  if nm.isEmpty then none
                  else some (1 + 1 + nm.length + 1, some c, String.mk nm)
              | _ => none
            else none
        | [] => none
      match withSym with
      | some r => some r
      | none =>
          let nm := rest.takeWhile isNameChar
          let rest2 := rest.dropWhile isNameChar
          match rest2 with
          | '\x7d' :: _ =>
              if nm.isEmpty then none
              else some (1 + nm.length + 1, none, String.mk nm)
          | _ => none
  | _ => none

/-- `re.finditer(TOKEN_PATTERN, string)`: leftmost, non-overlapping
matches as `(start, end, symbol, name)`.  The fuel argument is the
remaining list length (each step consumes at least one character). -/
def findTokenRefs : Nat → List Char → Nat → List (Nat × Nat × Option Char × String)
  | 0, _, _ => []
  | _ + 1, [], _ => []
  | fuel + 1, c :: rest, pos =>
      match tryTokenPattern (c :: rest) with
      | some (len, sym, nm) =>
          (pos, pos + len, sym, nm) ::
            findTokenRefs fuel ((c :: rest).drop len) (pos + len)
      | none => findTokenRefs fuel rest (pos + 1)

/-- Step-bounded body of `expandvars` (every step consumes at least one
character, so the initial budget `length + 1` never runs out). -/
def expandvarsAux (env : List (String × String)) :
    Nat → List Char → List Char
  | 0, cs => cs
  | _ + 1, [] => []
  | fuel + 1, '$' :: '\x7b' :: rest =>
      let nm := rest.takeWhile (fun c => c ≠ '\x7d')
      let rest2 := rest.dropWhile (fun c => c ≠ '\x7d')
      (match rest2 with
       | '\x7d' :: rest3 =>
           (match lookupS env (String.mk nm) with
            | some v => v.toList ++ expandvarsAux env fuel rest3
            | none => '$' :: '\x7b' :: (nm ++ '\x7d' :: expandvarsAux env fuel rest3))
       | _ => '$' :: '\x7b' :: expandvarsAux env fuel rest)
  | fuel + 1, '$' :: c :: rest =>
      if isWordChar c then
        let nm := c :: rest.takeWhile isWordChar
        let rest2 := rest.dropWhile isWordChar
        match lookupS env (String.mk nm) with
        | some v => v.toList ++ expandvarsAux env fuel rest2
        | none => '$' :: (nm ++ expandvarsAux env fuel rest2)
      else '$' :: expandvarsAux env fuel (c :: rest)
  | fuel + 1, c :: rest => c :: expandvarsAux env fuel rest

/-- `os.path.expandvars`: `$name` and `$\x7bname\x7d` are substituted
from the environment, unknown variables are left untouched; everything
else passes through.  The engine's template strings contain no `$`, so
this is the faithful no-op in every use below. -/
def expandvars (env : List (String × String)) (cs : List Char) : List Char :=
  expandvarsAux env (cs.length + 1) cs

/-- `self._templates.get(type, \x7b\x7d).get(name)`. -/
def lookupTemplate (st : ResolverState) (ttype nm : String) : Option Template :=
  match st.templates.lookup ttype with
  | some m => m.lookup nm
  | none => none

/-- Insert into a name-to-template map, replacing in place. -/
def insertTplMap : List (String × Template) → String → Template →
    List (String × Template)
  | [], nm, tmpl => [(nm, tmpl)]
  | (k, t) :: rest, nm, tmpl =>
      if k = nm then (k, tmpl) :: rest else (k, t) :: insertTplMap rest nm tmpl

/-- `self._templates.setdefault(template_type, \x7b\x7d)[template_name] = obj`. -/
def storeTemplate (st : ResolverState) (ttype nm : String) (tmpl : Template) :
    ResolverState :=
  let rec upd : List (String × List (String × Template)) →
      List (String × List (String × Template))
    | [] => [(ttype, [(nm, tmpl)])]
    | (k, m) :: rest =>
        if k = ttype then (k, insertTplMap m nm tmpl) :: rest
        else (k, m) :: upd rest
  ⟨st.tokens, upd st.templates⟩

/-- `TemplateResolver.get_token_cls`. -/
def getTokenKindFromType (tokenType : String) : Except PyExc TokenKind :=
  if tokenType = "int" then .ok .int
  else if tokenType = "str" then .ok .str
  else .error (.resolverError ("Unknown token type: " ++ tokenType))

/-- `TemplateResolver.create_token(token_name, token_config)`
(`token_config[KEY_TYPE]` passed as a separate argument): class dispatch
on the type, then the per-class regex / format-spec / description
derivations; the token object is stored in the flat registry. -/
def createToken (st : ResolverState) (tokenName tokenType : String)
    (cfg : TokenConfig) : Except PyExc (Token × ResolverState) :=
  if (st.tokens.lookup tokenName).isSome then
    .error (.resolverError ("Token '" ++ tokenName ++ "' already exists"))
  else do
    let kind ← getTokenKindFromType tokenType
    let regex ←
      match kind with
      | .int => Token.getRegexFromConfig "[0-9]" cfg
      | _ => StringToken.getRegexFromConfig cfg
    let fs :=
      match kind with
      | .int => IntToken.getFormatSpecFromConfig cfg
      | _ => StringToken.getFormatSpecFromConfig cfg
    let desc :=
      match kind with
      | .int => IntToken.getDescriptionFromConfig cfg
      | _ => StringToken.getDescriptionFromConfig cfg
    let tok : Token := ⟨tokenName, regex, fs, desc.getD "", cfg.default, kind⟩
    .ok (tok, ⟨st.tokens ++ [(tokenName, tok)], st.templates⟩)

/-- Split a dotted template reference
(`sep_index = name.find("."); subtype = name[:sep_index]; ...`). -/
def splitTemplateRef (currentType nm : String) : String × String :=
  let cs := nm.toList
  if cs.contains '.' then
    (String.mk (cs.takeWhile (fun c => c ≠ '.')),
     String.mk ((cs.dropWhile (fun c => c ≠ '.')).drop 1))
  else (currentType, nm)

/-- Reference config: template type → (template name → definition string). -/
abbrev RefConfig := List (String × List (String × String))

/-- Lookup in a reference config. -/
def lookupRefConfig (cfg : RefConfig) (ttype nm : String) : Option String :=
  match cfg.lookup ttype with
  | some m => m.lookup nm
  | none => none

/-- The segment-building loop of `create_template`, processing the
`finditer` matches in order while threading the resolver state.  The
recursive `create_template` invocation is abstracted as the `recurse`
argument (the caller passes the fueled recursion); `none` propagates a
computation that ran out of recursion budget. -/
def ctSegLoop
    (recurse : ResolverState → String → String → String →
      Option (Except PyExc (Template × ResolverState)))
    (ttype : String) (cs : List Char) (refCfg : RefConfig) :
    ResolverState → Nat → List (Nat × Nat × Option Char × String) →
    Option (Except PyExc (List Seg × ResolverState))
  | st, idx, [] =>
      let lastSeg := cs.drop idx
      some (.ok (if lastSeg.isEmpty then [] else [.lit (String.mk lastSeg)], st))
  | st, idx, (s, e, sym, nm) :: rest =>
      let gap : List Seg :=
        if s ≠ idx then [.lit (String.mk (sliceL cs idx s))] else []
      match sym with
      | some '@' =>
          let (subtype, name') := splitTemplateRef ttype nm
          (match lookupTemplate st subtype name' with
           | some tmpl =>
               (match ctSegLoop recurse ttype cs refCfg st e rest with
                | none => none
                | some (.error err) => some (.error err)
                | some (.ok (segs, st')) =>
                    some (.ok (gap ++ .sub tmpl :: segs, st')))
           | none =>
               (match lookupRefConfig refCfg subtype name' with
                | none =>
                    some (.error (.resolverError
                      ("Requested template name does not exist: " ++ name')))
                | some refString =>
                    (match recurse st name' subtype refString with
                     | none => none
                     | some (.error err) => some (.error err)
                     | some (.ok (tmpl, st1)) =>
                         (match ctSegLoop recurse ttype cs refCfg st1 e rest with
                          | none => none
                          | some (.error err) => some (.error err)
                          | some (.ok (segs, st')) =>
                              some (.ok (gap ++ .sub tmpl :: segs, st'))))))
      | none =>
          (match st.tokens.lookup nm with
           | none =>
               some (.error (.resolverError
                 ("Requested token name does not exist: " ++ nm)))
           | some tok =>
               (match ctSegLoop recurse ttype cs refCfg st e rest with
                | none => none
                | some (.error err) => some (.error err)
                | some (.ok (segs, st')) =>
                    some (.ok (gap ++ .tok tok :: segs, st'))))
      | some c =>
          some (.error (.resolverError ("Unknown token symbol: " ++ String.mk [c])))

/-- `TemplateResolver.create_template(name, type, string, reference_config)`
with an explicit environment for `os.path.expandvars` and a recursion
budget; `none` models the unbounded Python recursion exhausting any
budget (a `RecursionError`, not a `ResolverError`). -/
def createTemplate :
    Nat → ResolverState → String → String → String → RefConfig →
    List (String × String) → Option (Except PyExc (Template × ResolverState))
  | 0, _, _, _, _, _, _ => none
  | fuel + 1, st, templateName, templateType, string, refCfg, env =>
      if (lookupTemplate st templateType templateName).isSome then
        some (.error (.resolverError
          ("Template '" ++ templateType ++ "." ++ templateName ++ "' already exists")))
      else
        let cs := expandvars env string.toList
        let refs := findTokenRefs (cs.length + 1) cs 0
        match ctSegLoop
            (fun st' nm' ttype' str' =>
              createTemplate fuel st' nm' ttype' str' refCfg env)
            templateType cs refCfg st 0 refs with
        | none => none
        | some (.error err) => some (.error err)
        | some (.ok (segs, st')) =>
            let tmpl := Template.mk templateName segs
            some (.ok (tmpl, storeTemplate st' templateType templateName tmpl))
termination_by structural fuel _ _ _ _ _ _ => fuel

/-! ### Concrete instances used by the verification below -/

/-- Whether an `Except` is a success. -/
def isOkB {ε α : Type} : Except ε α → Bool
  | .ok _ => true
  | .error _ => false

/-- `padmin ≤ padmax` whenever both bounds are present. -/
def padLe : Option Int → Option Int → Bool
  | some a, some b => a ≤ b
  | _, _ => true

/-- The template `[IntToken("n"), "_", IntToken("n")]` from the
repeated-token example. -/
def tmplNN : Template :=
  .mk "name" [.tok (mkIntToken "n"), .lit "_", .tok (mkIntToken "n")]

/-- A template whose *first* segment is a nested template holding
`IntToken("n")`, followed by `"_"` and `IntToken("n")` again: the
repeated name's first occurrence is contributed by the child. -/
def tmplNested : Template :=
  .mk "p" [.sub (.mk "c" [.tok (mkIntToken "n")]), .lit "_", .tok (mkIntToken "n")]

/-- The debug-parsing example template
`["abc", IntToken("int"), ".def.", StringToken("str")]`. -/
def tmplC5 : Template :=
  .mk "name" [.lit "abc", .tok (mkIntToken "int"), .lit ".def.",
    .tok (mkStringToken "str")]

/-- The path template `["/root/", StringToken("str")]`. -/
def tmplPath : Template :=
  .mk "name" [.lit "/root/", .tok (mkStringToken "str")]

/-- `StringToken("s", regex="[a-zA-Z]+", format_spec="X>3s")`: a string
token whose render rule pads to width 3 with `X`. -/
def padStrTok : Token := ⟨"s", "[a-zA-Z]+", "X>3s", "", none, .str⟩

/-- `IntToken("d", format_spec="03d", default=5)`. -/
def intTokD : Token := ⟨"d", "[0-9]+", "03d", "", some (.int 5), .int⟩

/-- Single-token template around `intTokD`. -/
def tmplD : Template := .mk "x" [.tok intTokD]

/-- `Template("c", [StringToken("t")])`. -/
def childT : Template := .mk "c" [.tok (mkStringToken "t")]

/-- A parent template whose only segment is the nested `childT`. -/
def parentC4 : Template := .mk "p" [.sub childT]

/-- The resolver state after `create_token("str", \x7b"type": "str"\x7d)`
and `create_token("int", \x7b"type": "int"\x7d)`; falls back to the
empty resolver if either construction failed (it does not, as the
theorems check). -/
def c3State : ResolverState :=
  match createToken emptyResolver "str" "str" {} with
  | .error _ => emptyResolver
  | .ok (_, st1) =>
      match createToken st1 "int" "int" {} with
      | .error _ => emptyResolver
      | .ok (_, st2) => st2

/-- The template definition table
`\x7broot: "\x7bstr\x7d_\x7bint\x7d", parent: "\x7b@root\x7d_\x7bstr\x7d"\x7d`
under the template type `"template"`. -/
def c3RefCfg : RefConfig :=
  [("template", [("root", "\x7bstr\x7d_\x7bint\x7d"),
                 ("parent", "\x7b@root\x7d_\x7bstr\x7d")])]

/-- `create_template("parent", ...)` resolving `root` recursively through
the reference table (recursion depth 10 is ample: the table has two
entries and the run uses two frames). -/
def c3Result : Option (Except PyExc (Template × ResolverState)) :=
  createTemplate 10 c3State "parent" "template" "\x7b@root\x7d_\x7bstr\x7d" c3RefCfg []

/-- The constructed `parent` template. -/
def c3Parent : Template :=
  match c3Result with
  | some (.ok (t, _)) => t
  | _ => .mk "FAILED" []

/-- A cyclic definition table: template `a` references itself. -/
def cycCfg : RefConfig := [("template", [("a", "\x7b@a\x7d")])]

/-- A config combining an explicit regex with a nonzero `padmin`. -/
def cfgW : TokenConfig := { regex := some "[a-z]", padmin := some 2 }

/-! ## Theorems -/

/-- C1: in the flat repeated-token template `[IntToken("n"), "_",
IntToken("n")]` the first occurrence compiles to a named group and the
second to a backreference, `parse("1_1")` yields `\x7b"n": 1\x7d` and
`parse("1_2")` raises `ParseError` — but the seen-names threading
through *nested* templates is broken: `backreferences or []` severs the
shared list when it is empty, so a template whose repeated name first
occurs inside a leading child compiles *two* named groups `n`, and
`parse("1_1")` raises `re.error` (outside the `ParseError` family)
instead of accepting. -/
theorem repeated_token_backreference_and_nested_threading :
    tmplNN.regexStrTop = "(?P<n>[0-9]+)_(?P=n)" ∧
    tmplNN.parse "1_1" = .ok [("n", .int 1)] ∧
    tmplNN.parse "1_2" =
      .error (.parseError "String '1_2' doesn't match template 'name:\x7bn\x7d_\x7bn\x7d'") ∧
    tmplNested.regexStrTop = "(?P<n>[0-9]+)_(?P<n>[0-9]+)" ∧
    tmplNested.parse "1_1" = .error (.reError "re.error: redefinition of group name 'n'") :=
  ⟨rfl, by decide, by decide, rfl, by decide⟩

/-- C2 (counterexample): `Token.format` checks only that the rendered
text parses *successfully*, never that it parses back to an equal value:
for `StringToken("s", regex="[a-zA-Z]+", format_spec="X>3s")` and the
value `"ab"`, `format` succeeds with `"Xab"` while
`parse(format("ab")) = "Xab" ≠ "ab"` — refuting the universally
quantified round-trip claim. -/
theorem token_format_roundtrip_counterexample :
    padStrTok.format (.str "ab") = .ok "Xab" ∧
    padStrTok.parse "Xab" = .ok (.str "Xab") ∧
    Value.str "Xab" ≠ Value.str "ab" ∧
    ¬ (∀ (t : Token) (v : Value) (s : String), t.format v = .ok s → t.parse s = .ok v) :=
  ⟨by decide, by decide, by decide,
   fun h => absurd (h padStrTok (.str "ab") "Xab" (by decide)) (by decide)⟩

/-- C2 (amended): what `Token.format` does guarantee — whenever
`format(v)` returns a string without raising, re-parsing that string
*succeeds* (the parsed value is not compared with the input). -/
theorem token_format_success_implies_parse_success
    (t : Token) (v : Value) (s : String)
    (h : t.format v = .ok s) : ∃ v', t.parse s = .ok v' := by
  cases hf : pyFormat t.format_spec v with
  | none => simp [Token.format, hf] at h
  | some s' =>
      cases hp : t.parse s' with
      | ok w =>
          have hs : s' = s := by simpa [Token.format, hf, hp] using h
          subst hs
          exact ⟨w, hp⟩
      | error e =>
          exfalso
          cases hb : e.isParseErrorFamily <;>
            simp [Token.format, hf, hp, hb] at h

/-- C2 (witness): the amended theorem at `IntToken("i")` and value `5`. -/
theorem token_format_success_implies_parse_success_witness :
    (mkIntToken "i").format (.int 5) = .ok "5" ∧
    ∃ v', (mkIntToken "i").parse "5" = .ok v' :=
  ⟨by decide,
   token_format_success_implies_parse_success (mkIntToken "i") (.int 5) "5" (by decide)⟩

/-- C3: with tokens `str`/`int` and templates
`root = "\x7bstr\x7d_\x7bint\x7d"`,
`parent = "\x7b@root\x7d_\x7bstr\x7d"` resolved recursively through the
reference table, `parent.format` does return `"abc_50_abc"` — but
`parent.parse("abc_50_abc")` raises `re.error: redefinition of group
name 'str'` instead of returning the fields, because the empty
seen-names list is severed by `backreferences or []` before the `root`
child is compiled, so `str` compiles to a second named group rather
than a backreference. -/
theorem resolver_nested_template_format_and_parse :
    isOkB (createToken emptyResolver "str" "str" {}) = true ∧
    c3Parent.strPy = "parent:\x7bstr\x7d_\x7bint\x7d_\x7bstr\x7d" ∧
    c3Parent.regexStrTop = "(?P<str>[a-zA-Z]+)_(?P<int>[0-9]+)_(?P<str>[a-zA-Z]+)" ∧
    c3Parent.format [("str", .str "abc"), ("int", .int 50)] [] true = .ok "abc_50_abc" ∧
    c3Parent.parse "abc_50_abc" =
      .error (.reError "re.error: redefinition of group name 'str'") :=
  ⟨by decide, by decide, by decide, by decide, by decide⟩

/-- C4 (counterexample): the claimed resolution order does not hold for
token segments inside nested templates, and defaults are not rendered
via `Token.format`: (i) a token named in `unformatted` but reached only
through a nested template raises `MissingTokenError` instead of using
the override; (ii) a token with default `5` and format spec `03d`
formats as `"5"` (`str(default)`) while `Token.format(5)` would give
`"005"`. -/
theorem template_format_order_counterexample :
    Template.format parentC4 [] [("t", "*")] true = .error (.missingTokenError "t") ∧
    Template.format tmplD [] [] true = .ok "5" ∧
    Token.format intTokD (.int 5) = .ok "005" :=
  ⟨by decide, by decide, by decide⟩

/-- C4 (amended): the actual per-segment resolution of
`Template.format`: literals pass through; nested templates recurse with
the fields only (`unformatted` dropped, defaults re-enabled); a direct
token segment uses the `unformatted` override verbatim, else the field
value through `Token.format`, else `str(default)` when defaults are
enabled and one exists, else raises `MissingTokenError` with the token's
name; the template result is the concatenation of the segment
strings. -/
theorem template_format_resolution_order :
    (∀ s fields unf ud, formatSeg (.lit s) fields unf ud = .ok s) ∧
    (∀ tm fields unf ud, formatSeg (.sub tm) fields unf ud = Template.format tm fields [] true) ∧
    (∀ tk fields unf ud s, lookupS unf tk.name = some s →
        formatSeg (.tok tk) fields unf ud = .ok s) ∧
    (∀ tk fields unf ud v, lookupS unf tk.name = none → lookupF fields tk.name = some v →
        formatSeg (.tok tk) fields unf ud = tk.format v) ∧
    (∀ tk fields unf d, lookupS unf tk.name = none → lookupF fields tk.name = none →
        tk.default = some d → formatSeg (.tok tk) fields unf true = .ok (pyStr d)) ∧
    (∀ tk fields unf ud, lookupS unf tk.name = none → lookupF fields tk.name = none →
        (ud = false ∨ tk.default = none) →
        formatSeg (.tok tk) fields unf ud = .error (.missingTokenError tk.name)) ∧
    (∀ nm seg rest fields unf ud,
        Template.format (.mk nm (seg :: rest)) fields unf ud = do
          let s ← formatSeg seg fields unf ud
          let r ← formatSegs rest fields unf ud
          .ok (s ++ r)) := by
  refine ⟨fun s fields unf ud => rfl, fun tm fields unf ud => rfl, ?_, ?_, ?_, ?_,
    fun nm seg rest fields unf ud => rfl⟩
  · intro tk fields unf ud s h
    simp [formatSeg, h]
  · intro tk fields unf ud v h1 h2
    simp [formatSeg, h1, h2]
  · intro tk fields unf d h1 h2 h3
    simp [formatSeg, h1, h2, h3, pyOptStr]
  · intro tk fields unf ud h1 h2 h3
    rcases h3 with h3 | h3 <;> simp [formatSeg, h1, h2, h3]

/-- C4 (witness): the amended resolution order at concrete inputs —
an `unformatted` override, a `str(default)` fallback, and a missing
token. -/
theorem template_format_resolution_order_witness :
    formatSeg (.tok (mkStringToken "t")) [] [("t", "*")] true = .ok "*" ∧
    formatSeg (.tok intTokD) [] [] true = .ok "5" ∧
    formatSeg (.tok (mkStringToken "t")) [] [] false = .error (.missingTokenError "t") :=
  ⟨template_format_resolution_order.2.2.1 (mkStringToken "t") [] [("t", "*")] true "*" rfl,
   template_format_resolution_order.2.2.2.2.1 intTokD [] [] (.int 5) rfl rfl rfl,
   template_format_resolution_order.2.2.2.2.2.1 (mkStringToken "t") [] [] false rfl rfl
     (Or.inl rfl)⟩

/-- C5: `parse_debug` builds each literal sub-regex *without*
`re.escape` (the anchored `parse` regex does escape), so for the
template `["abc", IntToken("int"), ".def.", StringToken("str")]` the
input `"abc5Xdef,xyz"` — which `parse` rejects — is *accepted* by
`parse_debug` (the unescaped `.` matches `X` and `,`), returning fields
instead of raising the claimed diagnostic. -/
theorem parse_debug_unescaped_literal_divergence :
    tmplC5.regexStrTop = "abc(?P<int>[0-9]+)\\.def\\.(?P<str>[a-zA-Z]+)" ∧
    tmplC5.segmentsFlat.map (fun seg => "(" ++ segRegexForDebug seg ++ ")") =
      ["(abc)", "([0-9]+)", "(.def.)", "([a-zA-Z]+)"] ∧
    tmplC5.parse "abc5Xdef,xyz" =
      .error (.parseError
        "String 'abc5Xdef,xyz' doesn't match template 'name:abc\x7bint\x7d.def.\x7bstr\x7d'") ∧
    tmplC5.parseDebug "abc5Xdef,xyz" = .ok [("int", .int 5), ("str", .str "xyz")] :=
  ⟨rfl, by decide, by decide, by decide⟩

/-- C6: `parse_debug` and `parse` do not accept the same strings: for
`[IntToken("n"), "_", IntToken("n")]` and input `"01_1"`, `parse`
rejects (the backreference requires identical *text* `"01" ≠ "1"`)
while `parse_debug` succeeds (it compares *converted* values,
`int("01") == int("1")`), returning `\x7b"n": 1\x7d`. -/
theorem parse_debug_parse_acceptance_divergence :
    tmplNN.parse "01_1" =
      .error (.parseError "String '01_1' doesn't match template 'name:\x7bn\x7d_\x7bn\x7d'") ∧
    tmplNN.parseDebug "01_1" = .ok [("n", .int 1)] :=
  ⟨by decide, by decide⟩

/-- C7: `create_template` has no cycle check: on the self-referential
definition table `\x7ba: "\x7b@a\x7d"\x7d` the recursion exhausts
*every* finite budget — it never terminates with a `ResolverError` (nor
any other outcome); in Python this is a `RecursionError` from unbounded
recursion. -/
theorem create_template_cycle_divergence :
    ∀ fuel, createTemplate fuel emptyResolver "a" "template" "\x7b@a\x7d" cycCfg [] = none := by
  intro fuel
  induction fuel with
  | zero => rfl
  | succ n ih =>
      simp only [createTemplate]
      have hscan : findTokenRefs ((expandvars [] "\x7b@a\x7d".toList).length + 1)
          (expandvars [] "\x7b@a\x7d".toList) 0 = [(0, 4, some '@', "a")] := rfl
      rw [hscan]
      simp only [ctSegLoop]
      have hsplit : splitTemplateRef "template" "a" = ("template", "a") := rfl
      have hlt : lookupTemplate emptyResolver "template" "a" = none := rfl
      have href : lookupRefConfig cycCfg "template" "a" = some "\x7b@a\x7d" := rfl
      simp only [hsplit, hlt, href, ih]
      rfl

/-- C8 (counterexample): combining an explicit regex with `padmin = 0`
(or `padmax = 0`) is *not* rejected — the check is a truthiness test —
and on the integer kind a `case` together with an explicit regex is
silently ignored (only `StringToken` checks `case`); both
configurations construct successfully, refuting the claim that every
such combination raises `ResolverError` for both kinds. -/
theorem explicit_regex_constraint_counterexample :
    Token.getRegexFromConfig "[0-9]" { regex := some "[a-z]", padmin := some 0 } = .ok "[a-z]" ∧
    Token.getRegexFromConfig "[0-9]" { regex := some "[a-z]", caseFam := some "lower" } =
      .ok "[a-z]" ∧
    isOkB (createToken emptyResolver "t" "int" { regex := some "[a-z]", padmin := some 0 }) =
      true ∧
    StringToken.getRegexFromConfig { regex := some "[a-z]", caseFam := some "lower" } =
      .error (.resolverError "Cannot use construction keywords with explicit regex") :=
  ⟨by decide, by decide, by decide, by decide⟩

/-- C8 (amended): with an explicit regex, construction fails with
`ResolverError` exactly when `choices` is non-empty or `padmin`/`padmax`
is non-`None` and nonzero (integer kind, which ignores `case`
altogether), while the string kind additionally rejects any
non-`None` `case`. -/
theorem explicit_regex_constraint_rules (cfg : TokenConfig) (r : String)
    (h : cfg.regex = some r) :
    Token.getRegexFromConfig "[0-9]" cfg =
      (if choicesTruthy cfg.choices ∨ optIntTruthy cfg.padmin ∨ optIntTruthy cfg.padmax
       then .error (.resolverError "Cannot use construction keywords with explicit regex")
       else .ok r) ∧
    StringToken.getRegexFromConfig cfg =
      (if cfg.caseFam ≠ none
       then .error (.resolverError "Cannot use construction keywords with explicit regex")
       else if choicesTruthy cfg.choices ∨ optIntTruthy cfg.padmin ∨ optIntTruthy cfg.padmax
       then .error (.resolverError "Cannot use construction keywords with explicit regex")
       else .ok r) := by
  constructor
  · simp [Token.getRegexFromConfig, h]
  · cases hc : cfg.caseFam with
    | none =>
        simp [StringToken.getRegexFromConfig, Token.getRegexFromConfig, h, hc, optStrTruthy]
    | some c => simp [StringToken.getRegexFromConfig, h, hc, optStrTruthy]

/-- C8 (witness): the amended rules at an explicit regex with
`padmin = 2`, where both kinds reject. -/
theorem explicit_regex_constraint_rules_witness :
    cfgW.regex = some "[a-z]" ∧
    Token.getRegexFromConfig "[0-9]" cfgW =
      .error (.resolverError "Cannot use construction keywords with explicit regex") :=
  ⟨rfl, by rw [(explicit_regex_constraint_rules cfgW "[a-z]" rfl).1]; decide⟩

/-- C9: `\x7b"padmin": 3\x7d` on an integer token yields the pattern
`[0-9]\x7b3,\x7d` and the render spec `0=3d`;
`\x7b"padmin": 3, "padmax": 1\x7d` is a construction error with message
"Padmax (1) cannot be lower than padmin (3)"; and in general
`get_regex_padding` succeeds exactly when neither bound is negative and
`padmin ≤ padmax` whenever both are given. -/
theorem padding_construction_correct :
    get_regex_padding (some 3) none = .ok "\x7b3,\x7d" ∧
    Token.getRegexFromConfig "[0-9]" { padmin := some 3 } = .ok "[0-9]\x7b3,\x7d" ∧
    IntToken.getFormatSpecFromConfig { padmin := some 3 } = "0=3d" ∧
    Token.getRegexFromConfig "[0-9]" { padmin := some 3, padmax := some 1 } =
      .error (.resolverError "Padmax (1) cannot be lower than padmin (3)") ∧
    (∀ pm px : Option Int,
      isOkB (get_regex_padding pm px) = (!optNegInt pm && !optNegInt px && padLe pm px)) := by
  refine ⟨by decide, by decide, by decide, by decide, ?_⟩
  intro pm px
  cases pm <;> cases px <;>
    simp [get_regex_padding, optNegInt, padLe, isOkB] <;>
    split_ifs <;> simp_all

/-- C10: the path template `["/root/", StringToken("str")]` parses both
the forward-slash path `"/root/folder"` and the backslash path
`"\\root\\folder"` to `\x7b"str": "folder"\x7d` — backslash separators
are normalized to `/` before matching. -/
theorem pathtemplate_separator_normalization :
    PathTemplate.parse tmplPath "/root/folder" = .ok [("str", .str "folder")] ∧
    PathTemplate.parse tmplPath "\\root\\folder" = .ok [("str", .str "folder")] ∧
    pyReplace "\\root\\folder" "\\" "/" = "/root/folder" :=
  ⟨by decide, by decide, by decide⟩

end Templater
